import Mathlib

/-!
Shallow embedding of the document-ingestion / OCR pipeline of
`src/components/FileUpload.tsx` (the `FileUpload` component).

Modelling conventions:
* JavaScript numbers are modelled by `ℚ`; `Math.round` by `jsRound`
  (floor of `x + 1/2`, which matches `Math.round` for the non-negative
  values arising here).  The float idealization is noted where relevant.
* React state setters (`setProcessingProgress`, `setRawExtractedText`, …)
  become explicit state-passing over `AppState`.  `setProcessingProgress`
  additionally records every emitted value in a ghost trace
  (`emittedProgress`), and the per-page ref assignments are recorded in a
  ghost trace `refTrace`, so that the theorems can speak about the
  sequence of emitted progress events and recorded base-progress values.
* The Tesseract worker is modelled by a liveness flag plus ghost counters
  of creations/terminations (`workerAlive`, `workersCreated`,
  `workerTerminations`); `pdfjs.getDocument` attempts are counted in
  `parseAttempts`.
* Asynchronous fallible calls (worker creation, `getDocument`, page
  render, `recognize`) are driven by a `Scenario` record supplying, for
  each call, either a result or a thrown error, and for each `recognize`
  call the list of logger events the worker fires.  The `try/catch/finally`
  of the source becomes an `Except` value threaded through explicit
  catch/finally functions.
* `clearStatusMessageAfterDelay` only schedules a later UI clear; it is a
  no-op on the state modelled here.
-/

attribute [local semireducible] Rat.add Rat.mul Rat.inv Rat.sub

namespace FileUploadModel

/-- `Math.round` on the rational model of JS numbers: floor of `x + 1/2`
(Math.round rounds half-way cases toward +infinity; all values rounded by
this pipeline are non-negative). -/
def jsRound (x : ℚ) : ℤ := Int.floor (x + 1/2)

/-- Whitespace as stripped by `String.prototype.trim` (restricted to the
ASCII whitespace characters that can occur in this pipeline's text). -/
def isJsSpace (c : Char) : Bool := c == ' ' || c == '\t' || c == '\n' || c == '\r'

/-- `String.prototype.trim`: drop leading and trailing whitespace only. -/
def jsTrim (s : String) : String :=
  ⟨((s.data.dropWhile isJsSpace).reverse.dropWhile isJsSpace).reverse⟩

/-- The `type` field of a status message (`setStatusMessage({text, type})`). -/
inductive MsgType
  | info
  | success
  | warning
  | error
deriving DecidableEq

/-- A status message as passed to `setStatusMessage`. -/
structure StatusMessage where
  text : String
  mtype : MsgType
deriving DecidableEq

/-- `ocrPageProgressDataRef.current` of the component. -/
structure OcrPageProgressData where
  currentPage : ℕ
  totalPages : ℕ
  baseProgress : ℚ
  pageBudget : ℚ
deriving DecidableEq

/-- The uploaded `File` object: the fields the pipeline reads. -/
structure FileInfo where
  name : String
  size : ℕ
  mediaType : String
deriving DecidableEq

/-- One Tesseract logger message (`TesseractProgressUpdate` in the source):
a status string plus an optional progress fraction. -/
structure TesseractProgressUpdate where
  status : String
  progress : Option ℚ
deriving DecidableEq

/-- The component / context state touched by the pipeline, plus ghost
traces (emitted progress values, recorded per-page ref values, worker and
parse counters) used only by the verification. -/
structure AppState where
  rawExtractedText : String
  isLoading : Bool
  statusMessage : StatusMessage
  processingProgress : ℤ
  processingMessage : String
  currentFile : Option FileInfo
  ocrRef : OcrPageProgressData
  emittedProgress : List ℤ
  refTrace : List OcrPageProgressData
  workerAlive : Bool
  workersCreated : ℕ
  workerTerminations : ℕ
  parseAttempts : ℕ
deriving DecidableEq

/-- The component's state before any upload. -/
def initialAppState : AppState :=
  { rawExtractedText := ""
    isLoading := false
    statusMessage := ⟨"", MsgType.info⟩
    processingProgress := 0
    processingMessage := ""
    currentFile := none
    ocrRef := ⟨0, 0, 0, 0⟩
    emittedProgress := []
    refTrace := []
    workerAlive := false
    workersCreated := 0
    workerTerminations := 0
    parseAttempts := 0 }

/-- `setProcessingProgress(p)`: update the progress state and record the
emitted value in the ghost trace. -/
def setProcessingProgress (st : AppState) (p : ℤ) : AppState :=
  { st with processingProgress := p, emittedProgress := st.emittedProgress ++ [p] }

/-- `setProcessingMessage(msg)`. -/
def setProcessingMessage (st : AppState) (msg : String) : AppState :=
  { st with processingMessage := msg }

/-- `setRawExtractedText(t)`. -/
def setRawExtractedText (st : AppState) (t : String) : AppState :=
  { st with rawExtractedText := t }

/-- `setStatusMessage({text, type})`. -/
def setStatusMessage (st : AppState) (text : String) (k : MsgType) : AppState :=
  { st with statusMessage := ⟨text, k⟩ }

/-- `setIsLoading(b)`. -/
def setIsLoading (st : AppState) (b : Bool) : AppState :=
  { st with isLoading := b }

/-- `Tesseract.createWorker(...)` succeeding: the local worker variable
becomes non-null; the ghost creation counter increments. -/
def createWorker (st : AppState) : AppState :=
  { st with workerAlive := true, workersCreated := st.workersCreated + 1 }

/-- `await worker.terminate()` (unconditional call sites). -/
def terminateWorker (st : AppState) : AppState :=
  { st with workerAlive := false, workerTerminations := st.workerTerminations + 1 }

/-- `if (worker) await worker.terminate()` — the guarded release used in
the catch blocks. -/
def terminateWorkerGuarded (st : AppState) : AppState :=
  if st.workerAlive then terminateWorker st else st

/-- The "recognizing text" message built by `imageOcrLogger`. -/
def recognizingMsgImage (f : ℚ) : String :=
  "Reconhecendo texto... " ++ toString (jsRound (f * 100)) ++ "%"

/-- `imageOcrLogger` (lines 59–73 of the source): logger for single-image
OCR.  Only the "recognizing text" branch emits a progress value. -/
def imageOcrLogger (st : AppState) (m : TesseractProgressUpdate) : AppState :=
  if m.status = "recognizing text" ∧ m.progress.isSome = true then
    setProcessingMessage
      (setProcessingProgress st (jsRound (m.progress.getD 0 * 100)))
      (recognizingMsgImage (m.progress.getD 0))
  else if m.status = "loading tesseract core" ∨ m.status = "initializing api" ∨
      m.status = "loading language traineddata" ∨ m.status = "initializing tesseract" then
    if st.processingMessage ≠ recognizingMsgImage (m.progress.getD 0) ∧ m.progress.getD 0 < 1 then
      setProcessingMessage st ("Inicializando OCR: " ++ m.status)
    else st
  else if m.status ≠ "initialized api" ∧ m.status ≠ "loaded language traineddata" ∧
      m.progress.getD 0 < 1 then
    if m.status ≠ "recognizing text" then setProcessingMessage st m.status else st
  else st

/-- The "Analisando página …" message built by `pageAwarePdfOcrLogger`. -/
def recognizingMsgPdf (r : OcrPageProgressData) (f : ℚ) : String :=
  "Analisando página " ++ toString r.currentPage ++ "/" ++ toString r.totalPages ++
    " (Progresso OCR: " ++ toString (jsRound (f * 100)) ++ "%)..."

/-- `pageAwarePdfOcrLogger` (lines 76–92 of the source): logger for
page-by-page PDF OCR.  On a "recognizing text" event with fraction `f` it
emits `min(100, round(baseProgress + round(f * pageBudget)))` — note the
inner `Math.round` on `f * pageBudget` before the outer sum is rounded. -/
def pageAwarePdfOcrLogger (st : AppState) (m : TesseractProgressUpdate) : AppState :=
  if m.status = "recognizing text" ∧ m.progress.isSome = true then
    setProcessingMessage
      (setProcessingProgress st
        (min 100 (jsRound (st.ocrRef.baseProgress +
          ((jsRound (m.progress.getD 0 * st.ocrRef.pageBudget) : ℤ) : ℚ)))))
      (recognizingMsgPdf st.ocrRef (m.progress.getD 0))
  else if m.status = "loading tesseract core" ∨ m.status = "initializing api" ∨
      m.status = "loading language traineddata" ∨ m.status = "initializing tesseract" then
    if st.processingMessage ≠ recognizingMsgPdf st.ocrRef (m.progress.getD 0) ∧
        m.progress.getD 0 < 1 then
      setProcessingMessage st
        ("Inicializando OCR para página " ++ toString st.ocrRef.currentPage ++ ": " ++ m.status)
    else st
  else if m.status ≠ "initialized api" ∧ m.status ≠ "loaded language traineddata" ∧
      m.progress.getD 0 < 1 then
    if m.status ≠ "recognizing text" then
      setProcessingMessage st ("Status OCR pág. " ++ toString st.ocrRef.currentPage ++ ": " ++ m.status)
    else st
  else st

/-- Scenario for `ocrImageFile`: outcome of worker creation, the logger
events fired during `recognize`, and the `recognize` result. -/
structure ImageScenario where
  workerInit : Except String Unit
  recognizeEvents : List TesseractProgressUpdate
  recognizeResult : Except String String

/-- Scenario for `ocrPdfDocument`: outcome of `arrayBuffer`+`getDocument`
(`parse`, yielding `numPages` on success), worker creation, and for each
1-based page index the render outcome, logger events and `recognize`
result. -/
structure PdfScenario where
  parse : Except String ℕ
  workerInit : Except String Unit
  renderResult : ℕ → Except String Unit
  recognizeEvents : ℕ → List TesseractProgressUpdate
  recognizeResult : ℕ → Except String String

/-- `ocrImageFile`'s `try` block (lines 98–111). -/
def ocrImageTry (sc : ImageScenario) (st : AppState) : Except (String × AppState) AppState :=
  match sc.workerInit with
  | .error e => .error (e, st)
  | .ok _ =>
    let st := createWorker st
    let st := sc.recognizeEvents.foldl imageOcrLogger st
    match sc.recognizeResult with
    | .error e => .error (e, st)
    | .ok text =>
      let st := terminateWorker st
      if jsTrim text = "" then
        .ok (setStatusMessage (setRawExtractedText st "")
          "OCR concluído, mas nenhum texto foi detectado na imagem." MsgType.warning)
      else
        .ok (setStatusMessage (setRawExtractedText st text)
          "Texto da imagem extraído com OCR com sucesso!" MsgType.success)

/-- `ocrImageFile`'s `finally` block (lines 117–121). -/
def ocrImageFinally (st : AppState) : AppState :=
  setProcessingProgress (setProcessingMessage (setIsLoading st false) "") 0

/-- `ocrImageFile` (lines 94–122): try body, catch (clear text, error
status, guarded terminate), finally (reset loading/message/progress). -/
def ocrImageFile (sc : ImageScenario) (st : AppState) : AppState :=
  let st := setProcessingMessage st "Processando Imagem (OCR)..."
  let st := setProcessingProgress st 0
  let st := { st with workerAlive := false }
  match ocrImageTry sc st with
  | .ok st1 => ocrImageFinally st1
  | .error (e, st1) =>
    let st1 := setRawExtractedText st1 ""
    let st1 := setStatusMessage st1 ("Falha ao processar imagem com OCR: " ++ e) MsgType.error
    ocrImageFinally (terminateWorkerGuarded st1)

/-- The render-start progress update emitted before each page's
recognition (line 149): `Math.round(baseProgress + pageBudget * 0.1)`. -/
def pdfRenderStartProgress (r : OcrPageProgressData) : ℤ :=
  jsRound (r.baseProgress + r.pageBudget * (1/10))

/-- The per-page ref assignment at the top of the page loop (lines
144–145): set `currentPage := i` and `baseProgress := ((i-1)/N)*100`
(unrounded); the assigned ref value is recorded in the ghost trace. -/
def setLoopRef (st : AppState) (i N : ℕ) : AppState :=
  let r := { st.ocrRef with currentPage := i, baseProgress := (((i : ℚ) - 1) / (N : ℚ)) * 100 }
  { st with ocrRef := r, refTrace := st.refTrace ++ [r] }

/-- One iteration of the PDF page loop (lines 143–171) for page `i`:
ref assignment, render message, render-start progress update, page
render, recognition (logger events then result), text accumulation. -/
def pdfPageStep (sc : PdfScenario) (N i : ℕ) (st : AppState) (acc : String) :
    Except (String × AppState) (AppState × String) :=
  let st := setLoopRef st i N
  let st := setProcessingMessage st
    ("Renderizando página " ++ toString i ++ "/" ++ toString N ++ " do PDF...")
  let st := setProcessingProgress st (pdfRenderStartProgress st.ocrRef)
  match sc.renderResult i with
  | .error e => .error (e, st)
  | .ok _ =>
    let st := setProcessingMessage st
      ("Analisando página " ++ toString i ++ "/" ++ toString N ++ " com OCR...")
    let st := (sc.recognizeEvents i).foldl pageAwarePdfOcrLogger st
    match sc.recognizeResult i with
    | .error e => .error (e, st)
    | .ok t => .ok (st, acc ++ t ++ "\n")

/-- The PDF page loop over a list of page indices. -/
def pdfLoop (sc : PdfScenario) (N : ℕ) : List ℕ → AppState → String →
    Except (String × AppState) (AppState × String)
  | [], st, acc => .ok (st, acc)
  | i :: rest, st, acc =>
    match pdfPageStep sc N i st acc with
    | .error e => .error e
    | .ok (st1, acc1) => pdfLoop sc N rest st1 acc1

/-- `ocrPdfDocument`'s `try` block (lines 130–183): parse the PDF, set up
the progress ref (`pageBudget := 100 / numPages` — in JS this division
yields Infinity when `numPages = 0`; here it is the junk value `0`, and in
both semantics it is never consumed because the page loop is empty),
create the worker, run the page loop, terminate, classify the text. -/
def ocrPdfTry (sc : PdfScenario) (st : AppState) : Except (String × AppState) AppState :=
  let st := { st with parseAttempts := st.parseAttempts + 1 }
  match sc.parse with
  | .error e => .error (e, st)
  | .ok N =>
    let st := { st with ocrRef := ⟨0, N, 0, 100 / (N : ℚ)⟩ }
    match sc.workerInit with
    | .error e => .error (e, st)
    | .ok _ =>
      let st := createWorker st
      match pdfLoop sc N (List.range' 1 N) st "" with
      | .error e => .error e
      | .ok (st1, fullText) =>
        let st1 := terminateWorker st1
        if jsTrim fullText = "" then
          .ok (setStatusMessage (setRawExtractedText st1 "")
            "OCR do PDF concluído, mas nenhum texto foi detectado." MsgType.warning)
        else
          .ok (setStatusMessage (setRawExtractedText st1 (jsTrim fullText))
            "Texto do PDF extraído com OCR com sucesso!" MsgType.success)

/-- `ocrPdfDocument`'s `finally` block (lines 190–195). -/
def ocrPdfFinally (st : AppState) : AppState :=
  { setProcessingProgress (setProcessingMessage (setIsLoading st false) "") 0 with
      ocrRef := ⟨0, 0, 0, 0⟩ }

/-- `ocrPdfDocument` (lines 124–196). -/
def ocrPdfDocument (sc : PdfScenario) (st : AppState) : AppState :=
  let st := setProcessingMessage st "Iniciando processamento OCR do PDF..."
  let st := setProcessingProgress st 0
  let st := { st with workerAlive := false }
  match ocrPdfTry sc st with
  | .ok st1 => ocrPdfFinally st1
  | .error (e, st1) =>
    let st1 := setRawExtractedText st1 ""
    let st1 := setStatusMessage st1 ("Falha ao processar PDF com OCR: " ++ e) MsgType.error
    ocrPdfFinally (terminateWorkerGuarded st1)

/-- `String.prototype.startsWith` on the underlying character lists
(structural, so that concrete runs evaluate). -/
def listStartsWith : List Char → List Char → Bool
  | _, [] => true
  | [], _ :: _ => false
  | c :: cs, d :: ds => c == d && listStartsWith cs ds

/-- `s.startsWith(p)` for the media-type check. -/
def strStartsWith (s p : String) : Bool := listStartsWith s.data p.data

/-- The state prepared by `handleFile` before dispatching on media type
(lines 201–205). -/
def handleFilePrep (f : FileInfo) (st : AppState) : AppState :=
  setStatusMessage (setRawExtractedText { st with isLoading := true, currentFile := some f } "")
    ("Carregando arquivo: " ++ f.name) MsgType.info

/-- `handleFile` (lines 199–218): media-type dispatch; unsupported types
get a warning status, loading cleared and the file dropped, with no OCR
function invoked. -/
def handleFile (f : Option FileInfo) (psc : PdfScenario) (isc : ImageScenario)
    (st : AppState) : AppState :=
  match f with
  | none => st
  | some file =>
    let st := handleFilePrep file st
    if file.mediaType = "application/pdf" then ocrPdfDocument psc st
    else if strStartsWith file.mediaType "image/" then ocrImageFile isc st
    else
      { setStatusMessage st "Tipo de arquivo não suportado. Use PDF ou Imagem." MsgType.warning with
          isLoading := false, currentFile := none }

/-- The text accumulated by a run of the page loop in which every page
succeeds: each page's recognized text followed by one `"\n"`. -/
def joinPages (sc : PdfScenario) : List ℕ → String
  | [] => ""
  | i :: rest => ((sc.recognizeResult i).toOption.getD "") ++ "\n" ++ joinPages sc rest

/-- Worker/parse bookkeeping equality between two states. -/
def workerEq (a b : AppState) : Prop :=
  a.workerAlive = b.workerAlive ∧ a.workersCreated = b.workersCreated ∧
    a.workerTerminations = b.workerTerminations ∧ a.parseAttempts = b.parseAttempts

/-- A recorded per-page ref value is well-formed: its page index is in
range and its recorded base progress is exactly the unrounded fraction
`((currentPage - 1) / totalPages) * 100`. -/
def goodEntry (r : OcrPageProgressData) : Prop :=
  1 ≤ r.currentPage ∧ r.currentPage ≤ r.totalPages ∧
    r.baseProgress = (((r.currentPage : ℚ) - 1) / (r.totalPages : ℚ)) * 100

/-- The ref value recorded by the page-`i` loop iteration. -/
def loopEntry (st : AppState) (i N : ℕ) : OcrPageProgressData :=
  { st.ocrRef with currentPage := i, baseProgress := (((i : ℚ) - 1) / (N : ℚ)) * 100 }

/-! ### Concrete scenarios used by witnesses and counterexamples -/

/-- One-page PDF whose worker reports fraction 0.9 and then the
out-of-order fraction 0.1 during recognition. -/
def cexC1Scenario : PdfScenario :=
  ⟨.ok 1, .ok (), fun _ => .ok (),
    fun _ => [⟨"recognizing text", some (9/10)⟩, ⟨"recognizing text", some (1/10)⟩],
    fun _ => .ok "x"⟩

/-- State mid-operation on a one-page PDF (budget 100, base 0). -/
def c1State : AppState := { initialAppState with ocrRef := ⟨1, 1, 0, 100⟩ }

/-- State mid-operation on page 2 of a 3-page PDF, exactly as the loop
sets it: `baseProgress = 100/3`, `pageBudget = 100/3`. -/
def c2RefState : AppState := { initialAppState with ocrRef := ⟨2, 3, 100/3, 100/3⟩ }

/-- PDF whose parsed handle reports zero pages. -/
def zeroPageScenario : PdfScenario :=
  ⟨.ok 0, .ok (), fun _ => .ok (), fun _ => [], fun _ => .ok ""⟩

/-- Fault-free three-page PDF, every page recognizing as "t". -/
def c4PdfScenario : PdfScenario :=
  ⟨.ok 3, .ok (), fun _ => .ok (), fun _ => [], fun _ => .ok "t"⟩

/-- Fault-free image recognizing as "t". -/
def c4ImageScenario : ImageScenario := ⟨.ok (), [], .ok "t"⟩

/-- Image whose recognized text has leading/trailing whitespace. -/
def c5ImageScenario : ImageScenario := ⟨.ok (), [], .ok " a "⟩

/-- Fault-free two-page PDF with page texts "Alpha" and "Beta". -/
def alphaBetaScenario : PdfScenario :=
  ⟨.ok 2, .ok (), fun _ => .ok (), fun _ => [],
    fun i => if i = 1 then .ok "Alpha" else .ok "Beta"⟩

/-- An uploaded file of an unsupported media type. -/
def c7File : FileInfo := ⟨"notas.txt", 10, "text/plain"⟩

/-- Fault-free three-page PDF used to inspect the recorded ref values. -/
def c8Scenario : PdfScenario :=
  ⟨.ok 3, .ok (), fun _ => .ok (), fun _ => [], fun _ => .ok "t"⟩

/-- A PDF upload whose parse (`getDocument`) throws. -/
def c10PdfFailScenario : PdfScenario :=
  ⟨.error "bad pdf", .ok (), fun _ => .ok (), fun _ => [], fun _ => .ok "t"⟩

/-- A supported file used to observe `handleFile`'s preparation step. -/
def c10File : FileInfo := ⟨"doc.pdf", 100, "application/pdf"⟩

end FileUploadModel

namespace FileUploadModel

/-! ### Helper lemmas -/

theorem str_empty_append (s : String) : "" ++ s = s := rfl

/-- `jsRound` is monotone. -/
theorem jsRound_mono {x y : ℚ} (h : x ≤ y) : jsRound x ≤ jsRound y := by
  unfold jsRound
  exact Int.floor_le_floor (by linarith)

/-- On a "recognizing text" event with fraction `f`, `pageAwarePdfOcrLogger`
emits `min(100, round(baseProgress + round(f * pageBudget)))`. -/
theorem pdfLogger_recognizing_progress (st : AppState) (f : ℚ) :
    (pageAwarePdfOcrLogger st ⟨"recognizing text", some f⟩).processingProgress =
      min 100 (jsRound (st.ocrRef.baseProgress + ((jsRound (f * st.ocrRef.pageBudget) : ℤ) : ℚ))) := by
  simp [pageAwarePdfOcrLogger, setProcessingProgress, setProcessingMessage]

/-- `pageAwarePdfOcrLogger` only touches the progress/message state: the
worker bookkeeping, the ref, both ghost traces of record kind, the raw
text, the status message, the loading flag and the file are unchanged. -/
theorem pdfLogger_frame (st : AppState) (m : TesseractProgressUpdate) :
    (pageAwarePdfOcrLogger st m).workerAlive = st.workerAlive ∧
    (pageAwarePdfOcrLogger st m).workersCreated = st.workersCreated ∧
    (pageAwarePdfOcrLogger st m).workerTerminations = st.workerTerminations ∧
    (pageAwarePdfOcrLogger st m).parseAttempts = st.parseAttempts ∧
    (pageAwarePdfOcrLogger st m).ocrRef = st.ocrRef ∧
    (pageAwarePdfOcrLogger st m).refTrace = st.refTrace ∧
    (pageAwarePdfOcrLogger st m).rawExtractedText = st.rawExtractedText ∧
    (pageAwarePdfOcrLogger st m).statusMessage = st.statusMessage ∧
    (pageAwarePdfOcrLogger st m).isLoading = st.isLoading := by
  unfold pageAwarePdfOcrLogger
  split_ifs <;> simp [setProcessingProgress, setProcessingMessage]

/-- Folding `pageAwarePdfOcrLogger` over any event list preserves the same
fields as a single step. -/
theorem pdfLogger_foldl_frame (ms : List TesseractProgressUpdate) (st : AppState) :
    (ms.foldl pageAwarePdfOcrLogger st).workerAlive = st.workerAlive ∧
    (ms.foldl pageAwarePdfOcrLogger st).workersCreated = st.workersCreated ∧
    (ms.foldl pageAwarePdfOcrLogger st).workerTerminations = st.workerTerminations ∧
    (ms.foldl pageAwarePdfOcrLogger st).parseAttempts = st.parseAttempts ∧
    (ms.foldl pageAwarePdfOcrLogger st).ocrRef = st.ocrRef ∧
    (ms.foldl pageAwarePdfOcrLogger st).refTrace = st.refTrace := by
  induction ms generalizing st with
  | nil => simp
  | cons m ms ih =>
    obtain ⟨h1, h2, h3, h4, h5, h6, _, _, _⟩ := pdfLogger_frame st m
    obtain ⟨g1, g2, g3, g4, g5, g6⟩ := ih (pageAwarePdfOcrLogger st m)
    exact ⟨g1.trans h1, g2.trans h2, g3.trans h3, g4.trans h4, g5.trans h5, g6.trans h6⟩

/-- `imageOcrLogger` frame: same shape as `pdfLogger_frame`. -/
theorem imageLogger_frame (st : AppState) (m : TesseractProgressUpdate) :
    (imageOcrLogger st m).workerAlive = st.workerAlive ∧
    (imageOcrLogger st m).workersCreated = st.workersCreated ∧
    (imageOcrLogger st m).workerTerminations = st.workerTerminations := by
  unfold imageOcrLogger
  split_ifs <;> simp [setProcessingProgress, setProcessingMessage]

theorem imageLogger_foldl_frame (ms : List TesseractProgressUpdate) (st : AppState) :
    (ms.foldl imageOcrLogger st).workerAlive = st.workerAlive ∧
    (ms.foldl imageOcrLogger st).workersCreated = st.workersCreated ∧
    (ms.foldl imageOcrLogger st).workerTerminations = st.workerTerminations := by
  induction ms generalizing st with
  | nil => simp
  | cons m ms ih =>
    obtain ⟨h1, h2, h3⟩ := imageLogger_frame st m
    obtain ⟨g1, g2, g3⟩ := ih (imageOcrLogger st m)
    exact ⟨g1.trans h1, g2.trans h2, g3.trans h3⟩

end FileUploadModel

namespace FileUploadModel

theorem workerEq_refl (a : AppState) : workerEq a a := ⟨rfl, rfl, rfl, rfl⟩

theorem workerEq_trans {a b c : AppState} (h1 : workerEq a b) (h2 : workerEq b c) :
    workerEq a c :=
  ⟨h1.1.trans h2.1, h1.2.1.trans h2.2.1, h1.2.2.1.trans h2.2.2.1, h1.2.2.2.trans h2.2.2.2⟩

/-- One page-loop step leaves the worker bookkeeping unchanged, whether it
succeeds or throws. -/
theorem pdfPageStep_workerEq (sc : PdfScenario) (N i : ℕ) (st : AppState) (acc : String) :
    (∀ e st1, pdfPageStep sc N i st acc = .error (e, st1) → workerEq st1 st) ∧
    (∀ st1 acc1, pdfPageStep sc N i st acc = .ok (st1, acc1) → workerEq st1 st) := by
  unfold pdfPageStep
  rcases hR : sc.renderResult i with e | u
  · refine ⟨fun e1 st1 h => ?_, fun st1 acc1 h => ?_⟩
    · simp only [hR, Except.error.injEq, Prod.mk.injEq] at h
      obtain ⟨-, h2⟩ := h
      subst h2
      exact ⟨rfl, rfl, rfl, rfl⟩
    · simp [hR] at h
  · rcases hT : sc.recognizeResult i with e | t
    · refine ⟨fun e1 st1 h => ?_, fun st1 acc1 h => ?_⟩
      · simp only [hR, hT, Except.error.injEq, Prod.mk.injEq] at h
        obtain ⟨-, h2⟩ := h
        subst h2
        obtain ⟨g1, g2, g3, g4, -, -⟩ := pdfLogger_foldl_frame (sc.recognizeEvents i) _
        exact ⟨g1, g2, g3, g4⟩
      · simp [hR, hT] at h
    · refine ⟨fun e1 st1 h => ?_, fun st1 acc1 h => ?_⟩
      · simp [hR, hT] at h
      · simp only [hR, hT, Except.ok.injEq, Prod.mk.injEq] at h
        obtain ⟨h1, -⟩ := h
        subst h1
        obtain ⟨g1, g2, g3, g4, -, -⟩ := pdfLogger_foldl_frame (sc.recognizeEvents i) _
        exact ⟨g1, g2, g3, g4⟩

/-- The whole page loop leaves the worker bookkeeping unchanged. -/
theorem pdfLoop_workerEq (sc : PdfScenario) (N : ℕ) :
    ∀ (ps : List ℕ) (st : AppState) (acc : String),
      (∀ e st1, pdfLoop sc N ps st acc = .error (e, st1) → workerEq st1 st) ∧
      (∀ st1 acc1, pdfLoop sc N ps st acc = .ok (st1, acc1) → workerEq st1 st) := by
  intro ps
  induction ps with
  | nil =>
    intro st acc
    refine ⟨fun e st1 h => ?_, fun st1 acc1 h => ?_⟩
    · simp [pdfLoop] at h
    · simp only [pdfLoop, Except.ok.injEq, Prod.mk.injEq] at h
      obtain ⟨h1, -⟩ := h
      subst h1
      exact workerEq_refl _
  | cons i ps ih =>
    intro st acc
    refine ⟨fun e st1 h => ?_, fun st1 acc1 h => ?_⟩
    · simp only [pdfLoop] at h
      rcases hS : pdfPageStep sc N i st acc with ⟨e2, st2⟩ | ⟨st2, acc2⟩
      · simp only [hS, Except.error.injEq, Prod.mk.injEq] at h
        obtain ⟨-, h2⟩ := h
        subst h2
        exact (pdfPageStep_workerEq sc N i st acc).1 e2 st2 hS
      · simp only [hS] at h
        exact workerEq_trans ((ih st2 acc2).1 e st1 h)
          ((pdfPageStep_workerEq sc N i st acc).2 st2 acc2 hS)
    · simp only [pdfLoop] at h
      rcases hS : pdfPageStep sc N i st acc with ⟨e2, st2⟩ | ⟨st2, acc2⟩
      · simp [hS] at h
      · simp only [hS] at h
        exact workerEq_trans ((ih st2 acc2).2 st1 acc1 h)
          ((pdfPageStep_workerEq sc N i st acc).2 st2 acc2 hS)

end FileUploadModel

namespace FileUploadModel

/-- One page-loop step appends exactly its own ref record to the ghost
trace and keeps `totalPages` of the ref. -/
theorem pdfPageStep_refTrace (sc : PdfScenario) (N i : ℕ) (st : AppState) (acc : String) :
    (∀ e st1, pdfPageStep sc N i st acc = .error (e, st1) →
      st1.ocrRef.totalPages = st.ocrRef.totalPages ∧
      st1.refTrace = st.refTrace ++ [loopEntry st i N]) ∧
    (∀ st1 acc1, pdfPageStep sc N i st acc = .ok (st1, acc1) →
      st1.ocrRef.totalPages = st.ocrRef.totalPages ∧
      st1.refTrace = st.refTrace ++ [loopEntry st i N]) := by
  unfold pdfPageStep
  rcases hR : sc.renderResult i with e | u
  · refine ⟨fun e1 st1 h => ?_, fun st1 acc1 h => ?_⟩
    · simp only [hR, Except.error.injEq, Prod.mk.injEq] at h
      obtain ⟨-, h2⟩ := h
      subst h2
      simp [setLoopRef, setProcessingProgress, setProcessingMessage, loopEntry]
    · simp [hR] at h
  · rcases hT : sc.recognizeResult i with e | t
    · refine ⟨fun e1 st1 h => ?_, fun st1 acc1 h => ?_⟩
      · simp only [hR, hT, Except.error.injEq, Prod.mk.injEq] at h
        obtain ⟨-, h2⟩ := h
        subst h2
        obtain ⟨-, -, -, -, g5, g6⟩ := pdfLogger_foldl_frame (sc.recognizeEvents i) _
        refine ⟨?_, ?_⟩
        · rw [g5]
          simp [setLoopRef, setProcessingProgress, setProcessingMessage]
        · rw [g6]
          simp [setLoopRef, setProcessingProgress, setProcessingMessage, loopEntry]
      · simp [hR, hT] at h
    · refine ⟨fun e1 st1 h => ?_, fun st1 acc1 h => ?_⟩
      · simp [hR, hT] at h
      · simp only [hR, hT, Except.ok.injEq, Prod.mk.injEq] at h
        obtain ⟨h1, -⟩ := h
        subst h1
        obtain ⟨-, -, -, -, g5, g6⟩ := pdfLogger_foldl_frame (sc.recognizeEvents i) _
        refine ⟨?_, ?_⟩
        · rw [g5]
          simp [setLoopRef, setProcessingProgress, setProcessingMessage]
        · rw [g6]
          simp [setLoopRef, setProcessingProgress, setProcessingMessage, loopEntry]

/-- Loop invariant: when the ref's `totalPages` is the true page count `N`
and every processed page index lies in `[1, N]`, every ref record in the
resulting ghost trace is well-formed, on both normal and thrown exits. -/
theorem pdfLoop_refTrace_good (sc : PdfScenario) (N : ℕ) :
    ∀ (ps : List ℕ) (st : AppState) (acc : String),
      st.ocrRef.totalPages = N → (∀ i ∈ ps, 1 ≤ i ∧ i ≤ N) →
      (∀ r ∈ st.refTrace, goodEntry r) →
      (∀ e st1, pdfLoop sc N ps st acc = .error (e, st1) → ∀ r ∈ st1.refTrace, goodEntry r) ∧
      (∀ st1 acc1, pdfLoop sc N ps st acc = .ok (st1, acc1) → ∀ r ∈ st1.refTrace, goodEntry r) := by
  intro ps
  induction ps with
  | nil =>
    intro st acc hT hps hG
    refine ⟨fun e st1 h => ?_, fun st1 acc1 h => ?_⟩
    · simp [pdfLoop] at h
    · simp only [pdfLoop, Except.ok.injEq, Prod.mk.injEq] at h
      obtain ⟨h1, -⟩ := h
      subst h1
      exact hG
  | cons i ps ih =>
    intro st acc hT hps hG
    have hiN : 1 ≤ i ∧ i ≤ N := hps i (List.mem_cons_self i ps)
    have hEntry : goodEntry (loopEntry st i N) := by
      refine ⟨hiN.1, ?_, ?_⟩
      · simpa [loopEntry, hT] using hiN.2
      · simp [loopEntry, hT]
    have hAppend : ∀ r ∈ st.refTrace ++ [loopEntry st i N], goodEntry r := by
      intro r hr
      rcases List.mem_append.mp hr with hr | hr
      · exact hG r hr
      · rw [List.mem_singleton.mp hr]
        exact hEntry
    refine ⟨fun e st1 h => ?_, fun st1 acc1 h => ?_⟩
    · simp only [pdfLoop] at h
      rcases hS : pdfPageStep sc N i st acc with ⟨e2, st2⟩ | ⟨st2, acc2⟩
      · simp only [hS, Except.error.injEq, Prod.mk.injEq] at h
        obtain ⟨-, h2⟩ := h
        subst h2
        obtain ⟨-, hTr⟩ := (pdfPageStep_refTrace sc N i st acc).1 e2 st2 hS
        rw [hTr]
        exact hAppend
      · simp only [hS] at h
        obtain ⟨hTp, hTr⟩ := (pdfPageStep_refTrace sc N i st acc).2 st2 acc2 hS
        have := ih st2 acc2 (hTp.trans hT) (fun j hj => hps j (List.mem_cons_of_mem i hj))
          (hTr ▸ hAppend)
        exact this.1 e st1 h
    · simp only [pdfLoop] at h
      rcases hS : pdfPageStep sc N i st acc with ⟨e2, st2⟩ | ⟨st2, acc2⟩
      · simp [hS] at h
      · simp only [hS] at h
        obtain ⟨hTp, hTr⟩ := (pdfPageStep_refTrace sc N i st acc).2 st2 acc2 hS
        have := ih st2 acc2 (hTp.trans hT) (fun j hj => hps j (List.mem_cons_of_mem i hj))
          (hTr ▸ hAppend)
        exact this.2 st1 acc1 h

end FileUploadModel

namespace FileUploadModel

/-- When every page in `ps` renders and recognizes successfully, the page
loop succeeds and appends, for each page in order, that page's text
followed by one newline. -/
theorem pdfLoop_text (sc : PdfScenario) (N : ℕ) :
    ∀ (ps : List ℕ) (st : AppState) (acc : String),
      (∀ i ∈ ps, (sc.renderResult i).isOk = true ∧ (sc.recognizeResult i).isOk = true) →
      ∃ st1, pdfLoop sc N ps st acc = .ok (st1, acc ++ joinPages sc ps) := by
  intro ps
  induction ps with
  | nil =>
    intro st acc _
    exact ⟨st, by simp [pdfLoop, joinPages, String.append_empty]⟩
  | cons i ps ih =>
    intro st acc hok
    obtain ⟨hR, hT⟩ := hok i (List.mem_cons_self i ps)
    rcases hRr : sc.renderResult i with e | u
    · rw [hRr] at hR
      simp [Except.isOk, Except.toBool] at hR
    rcases hTr : sc.recognizeResult i with e | t
    · rw [hTr] at hT
      simp [Except.isOk, Except.toBool] at hT
    have hstep : ∃ st2, pdfPageStep sc N i st acc = .ok (st2, acc ++ t ++ "\n") := by
      unfold pdfPageStep
      rw [hRr, hTr]
      exact ⟨_, rfl⟩
    obtain ⟨st2, hstep⟩ := hstep
    obtain ⟨st1, hrec⟩ := ih st2 (acc ++ t ++ "\n")
      (fun j hj => hok j (List.mem_cons_of_mem i hj))
    refine ⟨st1, ?_⟩
    simp only [pdfLoop, hstep, hrec]
    have : acc ++ t ++ "\n" ++ joinPages sc ps = acc ++ joinPages sc (i :: ps) := by
      simp only [joinPages, hTr, Except.toOption, Option.getD, String.append_assoc]
    rw [this]

/-- The classification at the end of a successful `try` block of
`ocrPdfDocument`: either the warning (no text) outcome with the raw text
cleared, or the success outcome with a non-empty raw text. -/
theorem ocrPdfTry_ok_classified (sc : PdfScenario) (st st1 : AppState)
    (h : ocrPdfTry sc st = .ok st1) :
    (st1.statusMessage.mtype = MsgType.warning ∧ st1.rawExtractedText = "") ∨
    (st1.statusMessage.mtype = MsgType.success ∧ st1.rawExtractedText ≠ "") := by
  unfold ocrPdfTry at h
  rcases hp : sc.parse with e | N
  · simp [hp] at h
  rcases hw : sc.workerInit with e | u
  · simp [hp, hw] at h
  simp only [hp, hw] at h
  split at h
  · simp at h
  · split at h
    next hcond =>
      simp only [Except.ok.injEq] at h
      subst h
      left
      simp [setStatusMessage, setRawExtractedText]
    next hcond =>
      simp only [Except.ok.injEq] at h
      subst h
      right
      refine ⟨by simp [setStatusMessage, setRawExtractedText], ?_⟩
      simp only [setStatusMessage, setRawExtractedText]
      exact hcond

/-- Same classification for the image `try` block: warning with cleared
text, or success with the recognized text surfaced as-is. -/
theorem ocrImageTry_ok_classified (sc : ImageScenario) (st st1 : AppState)
    (h : ocrImageTry sc st = .ok st1) :
    (st1.statusMessage.mtype = MsgType.warning ∧ st1.rawExtractedText = "") ∨
    (st1.statusMessage.mtype = MsgType.success ∧ st1.rawExtractedText ≠ "") := by
  unfold ocrImageTry at h
  rcases hw : sc.workerInit with e | u
  · simp [hw] at h
  simp only [hw] at h
  split at h
  · simp at h
  next t =>
    split at h
    next hcond =>
      simp only [Except.ok.injEq] at h
      subst h
      left
      simp [setStatusMessage, setRawExtractedText]
    next hcond =>
      simp only [Except.ok.injEq] at h
      subst h
      right
      refine ⟨by simp [setStatusMessage, setRawExtractedText], ?_⟩
      simp only [setStatusMessage, setRawExtractedText]
      intro hc
      exact hcond (by rw [hc]; rfl)

/-- The `finally` block of `ocrPdfDocument` only resets loading, message,
progress and the page ref. -/
theorem ocrPdfFinally_fields (st : AppState) :
    (ocrPdfFinally st).rawExtractedText = st.rawExtractedText ∧
    (ocrPdfFinally st).statusMessage = st.statusMessage ∧
    (ocrPdfFinally st).workerAlive = st.workerAlive ∧
    (ocrPdfFinally st).workersCreated = st.workersCreated ∧
    (ocrPdfFinally st).workerTerminations = st.workerTerminations ∧
    (ocrPdfFinally st).refTrace = st.refTrace ∧
    (ocrPdfFinally st).emittedProgress = st.emittedProgress ++ [0] := by
  simp [ocrPdfFinally, setProcessingProgress, setProcessingMessage, setIsLoading]

/-- The `finally` block of `ocrImageFile` likewise. -/
theorem ocrImageFinally_fields (st : AppState) :
    (ocrImageFinally st).rawExtractedText = st.rawExtractedText ∧
    (ocrImageFinally st).statusMessage = st.statusMessage ∧
    (ocrImageFinally st).workerAlive = st.workerAlive ∧
    (ocrImageFinally st).workersCreated = st.workersCreated ∧
    (ocrImageFinally st).workerTerminations = st.workerTerminations := by
  simp [ocrImageFinally, setProcessingProgress, setProcessingMessage, setIsLoading]

end FileUploadModel

namespace FileUploadModel

/-- When the page loop completes normally, the accumulated text is the
input accumulator followed, in page order, by each page's recognized text
plus one newline. -/
theorem pdfLoop_ok_acc (sc : PdfScenario) (N : ℕ) :
    ∀ (ps : List ℕ) (st : AppState) (acc : String) (st1 : AppState) (acc1 : String),
      pdfLoop sc N ps st acc = .ok (st1, acc1) → acc1 = acc ++ joinPages sc ps := by
  intro ps
  induction ps with
  | nil =>
    intro st acc st1 acc1 h
    simp only [pdfLoop, Except.ok.injEq, Prod.mk.injEq] at h
    rw [← h.2, joinPages, String.append_empty]
  | cons i ps ih =>
    intro st acc st1 acc1 h
    simp only [pdfLoop] at h
    rcases hS : pdfPageStep sc N i st acc with ⟨e2, st2⟩ | ⟨st2, acc2⟩
    · simp [hS] at h
    · simp only [hS] at h
      have hacc2 : acc2 = acc ++ ((sc.recognizeResult i).toOption.getD "") ++ "\n" := by
        unfold pdfPageStep at hS
        rcases hR : sc.renderResult i with e | u
        · simp [hR] at hS
        rcases hT : sc.recognizeResult i with e | t
        · simp [hR, hT] at hS
        simp only [hR, hT, Except.ok.injEq, Prod.mk.injEq] at hS
        rw [← hS.2]
        rfl
      have := ih st2 acc2 st1 acc1 h
      rw [this, hacc2, joinPages]
      simp [String.append_assoc]

/-- When every page succeeds, the page loop never throws. -/
theorem pdfLoop_no_error (sc : PdfScenario) (N : ℕ) (ps : List ℕ) (st : AppState) (acc : String)
    (hall : ∀ i ∈ ps, (sc.renderResult i).isOk = true ∧ (sc.recognizeResult i).isOk = true) :
    ∀ p, pdfLoop sc N ps st acc ≠ .error p := by
  intro p h
  obtain ⟨st2, hL⟩ := pdfLoop_text sc N ps st acc hall
  rw [hL] at h
  simp at h

/-- With a parsed document and a created worker, the `try` block of
`ocrPdfDocument` throws only from inside the page loop. -/
theorem ocrPdfTry_no_error (sc : PdfScenario) (st : AppState) (N : ℕ)
    (hp : sc.parse = .ok N) (hw : sc.workerInit = .ok ())
    (hall : ∀ i ∈ List.range' 1 N,
      (sc.renderResult i).isOk = true ∧ (sc.recognizeResult i).isOk = true) :
    ∀ p, ocrPdfTry sc st ≠ .error p := by
  intro p hE
  unfold ocrPdfTry at hE
  simp only [hp, hw] at hE
  split at hE
  next e2 heq =>
    exact pdfLoop_no_error sc N (List.range' 1 N) _ "" hall e2 heq
  next st2 full heq =>
    split at hE <;> simp at hE

/-- A normal completion of the pdf `try` block surfaces exactly the
trimmed accumulated text when non-empty, or clears it with a warning. -/
theorem ocrPdfTry_ok_raw (sc : PdfScenario) (st st1 : AppState) (N : ℕ)
    (hp : sc.parse = .ok N) (hw : sc.workerInit = .ok ())
    (hE : ocrPdfTry sc st = .ok st1) :
    (jsTrim (joinPages sc (List.range' 1 N)) = "" →
      st1.rawExtractedText = "" ∧ st1.statusMessage.mtype = MsgType.warning) ∧
    (jsTrim (joinPages sc (List.range' 1 N)) ≠ "" →
      st1.rawExtractedText = jsTrim (joinPages sc (List.range' 1 N)) ∧
      st1.statusMessage.mtype = MsgType.success) := by
  unfold ocrPdfTry at hE
  simp only [hp, hw] at hE
  split at hE
  · simp at hE
  next st2 full heq =>
    have hfull : full = "" ++ joinPages sc (List.range' 1 N) :=
      pdfLoop_ok_acc sc N (List.range' 1 N) _ "" st2 full heq
    rw [str_empty_append] at hfull
    subst hfull
    split at hE
    next hcond =>
      simp only [Except.ok.injEq] at hE
      subst hE
      exact ⟨fun _ => by simp [setStatusMessage, setRawExtractedText],
        fun hne => absurd hcond hne⟩
    next hcond =>
      simp only [Except.ok.injEq] at hE
      subst hE
      exact ⟨fun hc => absurd hc hcond,
        fun _ => by simp [setStatusMessage, setRawExtractedText]⟩

/-- With a created worker and a successful recognition, the image `try`
block never throws. -/
theorem ocrImageTry_no_error (sc : ImageScenario) (st : AppState) (t : String)
    (hw : sc.workerInit = .ok ()) (ht : sc.recognizeResult = .ok t) :
    ∀ p, ocrImageTry sc st ≠ .error p := by
  intro p hE
  unfold ocrImageTry at hE
  simp only [hw, ht] at hE
  split at hE <;> simp at hE

/-- A normal completion of the image `try` block surfaces the recognized
text untrimmed when it trims non-empty, or clears it with a warning. -/
theorem ocrImageTry_ok_raw (sc : ImageScenario) (st st1 : AppState) (t : String)
    (hw : sc.workerInit = .ok ()) (ht : sc.recognizeResult = .ok t)
    (hE : ocrImageTry sc st = .ok st1) :
    (jsTrim t = "" → st1.rawExtractedText = "" ∧ st1.statusMessage.mtype = MsgType.warning) ∧
    (jsTrim t ≠ "" → st1.rawExtractedText = t ∧ st1.statusMessage.mtype = MsgType.success) := by
  unfold ocrImageTry at hE
  simp only [hw, ht] at hE
  split at hE
  next hcond =>
    simp only [Except.ok.injEq] at hE
    subst hE
    exact ⟨fun _ => by simp [setStatusMessage, setRawExtractedText],
      fun hne => absurd hcond hne⟩
  next hcond =>
    simp only [Except.ok.injEq] at hE
    subst hE
    exact ⟨fun hc => absurd hc hcond,
      fun _ => by simp [setStatusMessage, setRawExtractedText]⟩

end FileUploadModel

namespace FileUploadModel

/-- Worker bookkeeping through the pdf `try` block: a thrown exit leaves
the one created worker alive and unterminated (the catch must release it);
a normal exit leaves it terminated exactly once. -/
theorem ocrPdfTry_worker (sc : PdfScenario) (st : AppState) (N : ℕ)
    (hp : sc.parse = .ok N) (hw : sc.workerInit = .ok ()) :
    (∀ e st1, ocrPdfTry sc st = .error (e, st1) →
      st1.workerAlive = true ∧ st1.workersCreated = st.workersCreated + 1 ∧
      st1.workerTerminations = st.workerTerminations) ∧
    (∀ st1, ocrPdfTry sc st = .ok st1 →
      st1.workerAlive = false ∧ st1.workersCreated = st.workersCreated + 1 ∧
      st1.workerTerminations = st.workerTerminations + 1) := by
  unfold ocrPdfTry
  simp only [hp, hw]
  constructor
  · intro e st1 h
    split at h
    next e2 heq =>
      obtain ⟨e2a, e2b⟩ := e2
      simp only [Except.error.injEq, Prod.mk.injEq] at h
      obtain ⟨h1, h2⟩ := h
      subst h1
      subst h2
      obtain ⟨w1, w2, w3, -⟩ := (pdfLoop_workerEq sc N (List.range' 1 N) _ "").1 e2a e2b heq
      exact ⟨w1, w2, w3⟩
    next st2 full heq =>
      split at h <;> simp at h
  · intro st1 h
    split at h
    next e2 heq =>
      simp at h
    next st2 full heq =>
      obtain ⟨w1, w2, w3, -⟩ := (pdfLoop_workerEq sc N (List.range' 1 N) _ "").2 st2 full heq
      split at h <;>
        (simp only [Except.ok.injEq] at h
         subst h
         refine ⟨rfl, ?_, ?_⟩ <;>
           simp [setStatusMessage, setRawExtractedText, terminateWorker, w2, w3, createWorker])

end FileUploadModel

namespace FileUploadModel

/-- Worker bookkeeping through the image `try` block, analogous to
`ocrPdfTry_worker`. -/
theorem ocrImageTry_worker (sc : ImageScenario) (st : AppState)
    (hw : sc.workerInit = .ok ()) :
    (∀ e st1, ocrImageTry sc st = .error (e, st1) →
      st1.workerAlive = true ∧ st1.workersCreated = st.workersCreated + 1 ∧
      st1.workerTerminations = st.workerTerminations) ∧
    (∀ st1, ocrImageTry sc st = .ok st1 →
      st1.workerAlive = false ∧ st1.workersCreated = st.workersCreated + 1 ∧
      st1.workerTerminations = st.workerTerminations + 1) := by
  unfold ocrImageTry
  simp only [hw]
  obtain ⟨g1, g2, g3⟩ := imageLogger_foldl_frame sc.recognizeEvents (createWorker st)
  constructor
  · intro e st1 h
    split at h
    next e2 heq =>
      simp only [Except.error.injEq, Prod.mk.injEq] at h
      obtain ⟨-, h2⟩ := h
      subst h2
      exact ⟨g1, g2, g3⟩
    next t heq =>
      split at h <;> simp at h
  · intro st1 h
    split at h
    next e2 heq =>
      simp at h
    next t heq =>
      split at h <;>
        (simp only [Except.ok.injEq] at h
         subst h
         refine ⟨rfl, ?_, ?_⟩
         · simp only [setStatusMessage, setRawExtractedText, terminateWorker]
           rw [g2]
           simp [createWorker]
         · simp only [setStatusMessage, setRawExtractedText, terminateWorker]
           rw [g3]
           simp [createWorker])

/-- Every ref value recorded during `ocrPdfDocument`'s `try` block is
well-formed, whether the block completes or throws. -/
theorem ocrPdfTry_refTrace_good (sc : PdfScenario) (st : AppState) (hT : st.refTrace = []) :
    (∀ e st1, ocrPdfTry sc st = .error (e, st1) → ∀ r ∈ st1.refTrace, goodEntry r) ∧
    (∀ st1, ocrPdfTry sc st = .ok st1 → ∀ r ∈ st1.refTrace, goodEntry r) := by
  unfold ocrPdfTry
  rcases hp : sc.parse with e | N
  · refine ⟨fun e1 st1 h => ?_, fun st1 h => ?_⟩
    · simp only [hp, Except.error.injEq, Prod.mk.injEq] at h
      obtain ⟨-, h2⟩ := h
      subst h2
      intro r hr
      simp [hT] at hr
    · simp [hp] at h
  rcases hw : sc.workerInit with e | u
  · refine ⟨fun e1 st1 h => ?_, fun st1 h => ?_⟩
    · simp only [hp, hw, Except.error.injEq, Prod.mk.injEq] at h
      obtain ⟨-, h2⟩ := h
      subst h2
      intro r hr
      simp [hT] at hr
    · simp [hp, hw] at h
  have hpages : ∀ i ∈ List.range' 1 N, 1 ≤ i ∧ i ≤ N := by
    intro i hi
    rw [List.mem_range'_1] at hi
    omega
  refine ⟨fun e1 st1 h => ?_, fun st1 h => ?_⟩
  · simp only [hp, hw] at h
    split at h
    next e2 heq =>
      obtain ⟨e2a, e2b⟩ := e2
      simp only [Except.error.injEq, Prod.mk.injEq] at h
      obtain ⟨-, h2⟩ := h
      subst h2
      refine (pdfLoop_refTrace_good sc N (List.range' 1 N) _ "" rfl hpages ?_).1 e2a e2b heq
      intro r hr
      simp [createWorker, hT] at hr
    next st2 full heq =>
      split at h <;> simp at h
  · simp only [hp, hw] at h
    split at h
    next e2 heq =>
      simp at h
    next st2 full heq =>
      have hgood : ∀ r ∈ st2.refTrace, goodEntry r := by
        refine (pdfLoop_refTrace_good sc N (List.range' 1 N) _ "" rfl hpages ?_).2 st2 full heq
        intro r hr
        simp [createWorker, hT] at hr
      split at h <;>
        (simp only [Except.ok.injEq] at h
         subst h
         simpa [setStatusMessage, setRawExtractedText, terminateWorker] using hgood)

end FileUploadModel

namespace FileUploadModel

/-! ### Claims -/

/-- C1 (amended): the source aggregator has no clamp to a running maximum,
so the emitted sequence is NOT non-decreasing for arbitrary event
sequences (see `pdf_progress_sequence_can_decrease`); what does hold is
that, for a fixed page ref with non-negative budget, the value emitted by
`pageAwarePdfOcrLogger` for a "recognizing text" event is monotone in the
reported fraction, so in-order (non-decreasing) fractions within one page
produce non-decreasing emissions. -/
theorem pdf_recognizing_progress_monotone (st : AppState) (f g : ℚ)
    (hp : 0 ≤ st.ocrRef.pageBudget) (hfg : f ≤ g) :
    (pageAwarePdfOcrLogger st ⟨"recognizing text", some f⟩).processingProgress ≤
      (pageAwarePdfOcrLogger (pageAwarePdfOcrLogger st ⟨"recognizing text", some f⟩)
        ⟨"recognizing text", some g⟩).processingProgress := by
  have hr : (pageAwarePdfOcrLogger st ⟨"recognizing text", some f⟩).ocrRef = st.ocrRef :=
    (pdfLogger_frame st ⟨"recognizing text", some f⟩).2.2.2.2.1
  rw [pdfLogger_recognizing_progress, pdfLogger_recognizing_progress, hr]
  refine min_le_min le_rfl (jsRound_mono ?_)
  have h1 : f * st.ocrRef.pageBudget ≤ g * st.ocrRef.pageBudget :=
    mul_le_mul_of_nonneg_right hfg hp
  have h2 : ((jsRound (f * st.ocrRef.pageBudget) : ℤ) : ℚ) ≤
      ((jsRound (g * st.ocrRef.pageBudget) : ℤ) : ℚ) := by
    exact_mod_cast jsRound_mono h1
  linarith

/-- Witness for `pdf_recognizing_progress_monotone` at fractions 1/4 ≤ 1/2
on a one-page ref. -/
theorem pdf_recognizing_progress_monotone_witness :
    (pageAwarePdfOcrLogger c1State ⟨"recognizing text", some (1/4)⟩).processingProgress ≤
      (pageAwarePdfOcrLogger (pageAwarePdfOcrLogger c1State ⟨"recognizing text", some (1/4)⟩)
        ⟨"recognizing text", some (1/2)⟩).processingProgress :=
  pdf_recognizing_progress_monotone c1State (1/4) (1/2) (by decide) (by decide)

/-- C1 counterexample: feeding the out-of-order fractions 0.9 then 0.1 on
a one-page PDF makes the emitted overall-progress sequence decrease
(0, 10 at render start, 90, then 10 again): the claim's non-decreasing
property fails on the code. -/
theorem pdf_progress_sequence_can_decrease :
    (ocrPdfDocument cexC1Scenario initialAppState).emittedProgress = [0, 10, 90, 10, 0] ∧
    ¬ List.Sorted (· ≤ ·) (ocrPdfDocument cexC1Scenario initialAppState).emittedProgress :=
  ⟨by decide, by decide⟩

/-- C2 (amended): for the ref state the loop sets for page `i` of `N`, a
"recognizing text" event with fraction `f` emits
`min(100, round(baseProgress + round(f * (100/N))))` — the code rounds the
page-local contribution to an integer BEFORE adding it to the (unrounded)
base, rather than computing `round(baseProgress + f * (100/N))`; the two
agree on the spec's example `N = 3, i = 2, f = 1/2`, where the emitted
value is 50. -/
theorem pdf_recognition_event_formula (st : AppState) (f : ℚ) (i N : ℕ)
    (h : st.ocrRef = ⟨i, N, (((i : ℚ) - 1) / (N : ℚ)) * 100, 100 / (N : ℚ)⟩) :
    (pageAwarePdfOcrLogger st ⟨"recognizing text", some f⟩).processingProgress =
      min 100 (jsRound ((((i : ℚ) - 1) / (N : ℚ)) * 100 +
        ((jsRound (f * (100 / (N : ℚ))) : ℤ) : ℚ))) ∧
    (pageAwarePdfOcrLogger c2RefState ⟨"recognizing text", some (1/2)⟩).processingProgress = 50 := by
  constructor
  · rw [pdfLogger_recognizing_progress, h]
  · decide

/-- Witness for `pdf_recognition_event_formula` at page 2 of 3 with
fraction 1/4. -/
theorem pdf_recognition_event_formula_witness :
    (pageAwarePdfOcrLogger c2RefState ⟨"recognizing text", some (1/4)⟩).processingProgress =
      min 100 (jsRound (((((2 : ℕ) : ℚ) - 1) / ((3 : ℕ) : ℚ)) * 100 +
        ((jsRound ((1/4) * (100 / ((3 : ℕ) : ℚ))) : ℤ) : ℚ))) :=
  (pdf_recognition_event_formula c2RefState (1/4) 2 3 (by decide)).1

/-- C2 counterexample: at page 2 of 3 with fraction 1/4 the code emits 41,
whereas the claimed formula `min(100, round(baseProgress + f * (100/N)))`
gives 42. -/
theorem pdf_progress_differs_from_single_rounding :
    (pageAwarePdfOcrLogger c2RefState ⟨"recognizing text", some (1/4)⟩).processingProgress = 41 ∧
    (41 : ℤ) ≠ min 100 (jsRound ((100 : ℚ)/3 + (1/4) * (100/3))) :=
  ⟨by decide, by decide⟩

end FileUploadModel

namespace FileUploadModel

/-- C3 (amended): a PDF whose parsed handle reports zero pages is NOT
rejected and no `EmptyDocumentError` exists in the code: the page loop
simply never runs, so no per-page progress event is emitted (only the
initial reset to 0 and the `finally` reset to 0 appear in the trace), the
worker is still created and terminated once, and the operation completes
with the empty-text warning outcome and cleared raw text.  The per-page
budget `100 / numPages` IS computed with the zero divisor (Infinity in JS)
but its value is never consumed. -/
theorem zero_page_pdf_completes_as_empty (sc : PdfScenario) (st : AppState)
    (h0 : sc.parse = .ok 0) (hw : sc.workerInit = .ok ()) :
    (ocrPdfDocument sc st).statusMessage =
      ⟨"OCR do PDF concluído, mas nenhum texto foi detectado.", MsgType.warning⟩ ∧
    (ocrPdfDocument sc st).rawExtractedText = "" ∧
    (ocrPdfDocument sc st).emittedProgress = st.emittedProgress ++ [0, 0] ∧
    (ocrPdfDocument sc st).workersCreated = st.workersCreated + 1 ∧
    (ocrPdfDocument sc st).workerTerminations = st.workerTerminations + 1 := by
  have hrange : List.range' 1 0 = ([] : List ℕ) := rfl
  have htrim : jsTrim "" = "" := rfl
  unfold ocrPdfDocument ocrPdfTry
  simp only [h0, hw, hrange, pdfLoop, htrim]
  norm_num [ocrPdfFinally, setProcessingProgress, setProcessingMessage, setIsLoading,
    setStatusMessage, setRawExtractedText, createWorker, terminateWorker]

/-- Witness for `zero_page_pdf_completes_as_empty` on a concrete zero-page
scenario from the initial state. -/
theorem zero_page_pdf_completes_as_empty_witness :
    (ocrPdfDocument zeroPageScenario initialAppState).statusMessage =
      ⟨"OCR do PDF concluído, mas nenhum texto foi detectado.", MsgType.warning⟩ ∧
    (ocrPdfDocument zeroPageScenario initialAppState).rawExtractedText = "" ∧
    (ocrPdfDocument zeroPageScenario initialAppState).emittedProgress =
      initialAppState.emittedProgress ++ [0, 0] ∧
    (ocrPdfDocument zeroPageScenario initialAppState).workersCreated =
      initialAppState.workersCreated + 1 ∧
    (ocrPdfDocument zeroPageScenario initialAppState).workerTerminations =
      initialAppState.workerTerminations + 1 :=
  zero_page_pdf_completes_as_empty zeroPageScenario initialAppState rfl rfl

/-- C3 counterexample: with a zero-page handle the pipeline does not fail:
the final status is the warning "no text detected", not an error, so no
`EmptyDocumentError` is raised before (or after) the aggregator setup. -/
theorem zero_page_pdf_not_failed :
    (ocrPdfDocument zeroPageScenario initialAppState).statusMessage.mtype = MsgType.warning ∧
    MsgType.warning ≠ MsgType.error :=
  ⟨by decide, by decide⟩

end FileUploadModel

namespace FileUploadModel

/-- C4: in every execution in which a recognition worker was created
(parse and worker creation succeed; page renders, recognitions and the
image recognition may succeed or throw arbitrarily), the worker is
terminated exactly once — on the success path, on the empty-result path
and on every thrown-error path — and the guarded release used by the catch
blocks is idempotent. -/
theorem worker_released_exactly_once :
    (∀ (sc : PdfScenario) (st : AppState) (N : ℕ),
      sc.parse = .ok N → sc.workerInit = .ok () →
      (ocrPdfDocument sc st).workersCreated = st.workersCreated + 1 ∧
      (ocrPdfDocument sc st).workerTerminations = st.workerTerminations + 1 ∧
      (ocrPdfDocument sc st).workerAlive = false) ∧
    (∀ (sc : ImageScenario) (st : AppState), sc.workerInit = .ok () →
      (ocrImageFile sc st).workersCreated = st.workersCreated + 1 ∧
      (ocrImageFile sc st).workerTerminations = st.workerTerminations + 1 ∧
      (ocrImageFile sc st).workerAlive = false) ∧
    (∀ st : AppState, terminateWorkerGuarded (terminateWorkerGuarded st) = terminateWorkerGuarded st) := by
  refine ⟨?_, ?_, ?_⟩
  · intro sc st N hp hw
    unfold ocrPdfDocument
    dsimp only
    split
    next st1 heq =>
      obtain ⟨hA, hC, hT⟩ := (ocrPdfTry_worker sc _ N hp hw).2 st1 heq
      obtain ⟨-, -, f3, f4, f5, -, -⟩ := ocrPdfFinally_fields st1
      exact ⟨f4.trans hC, f5.trans hT, f3.trans hA⟩
    next e st1 heq =>
      obtain ⟨hA, hC, hT⟩ := (ocrPdfTry_worker sc _ N hp hw).1 e st1 heq
      refine ⟨?_, ?_, ?_⟩ <;>
        simp [ocrPdfFinally, setProcessingProgress, setProcessingMessage, setIsLoading,
          terminateWorkerGuarded, terminateWorker, setStatusMessage,
          setRawExtractedText, hA, hC, hT]
  · intro sc st hw
    unfold ocrImageFile
    dsimp only
    split
    next st1 heq =>
      obtain ⟨hA, hC, hT⟩ := (ocrImageTry_worker sc _ hw).2 st1 heq
      obtain ⟨-, -, f3, f4, f5⟩ := ocrImageFinally_fields st1
      exact ⟨f4.trans hC, f5.trans hT, f3.trans hA⟩
    next e st1 heq =>
      obtain ⟨hA, hC, hT⟩ := (ocrImageTry_worker sc _ hw).1 e st1 heq
      refine ⟨?_, ?_, ?_⟩ <;>
        simp [ocrImageFinally, setProcessingProgress, setProcessingMessage, setIsLoading,
          terminateWorkerGuarded, terminateWorker, setStatusMessage,
          setRawExtractedText, hA, hC, hT]
  · intro st
    unfold terminateWorkerGuarded terminateWorker
    split_ifs <;> simp_all

/-- Witness for `worker_released_exactly_once` on a fault-free 3-page PDF
and a fault-free image from the initial state. -/
theorem worker_released_exactly_once_witness :
    ((ocrPdfDocument c4PdfScenario initialAppState).workersCreated =
        initialAppState.workersCreated + 1 ∧
      (ocrPdfDocument c4PdfScenario initialAppState).workerTerminations =
        initialAppState.workerTerminations + 1 ∧
      (ocrPdfDocument c4PdfScenario initialAppState).workerAlive = false) ∧
    ((ocrImageFile c4ImageScenario initialAppState).workersCreated =
        initialAppState.workersCreated + 1 ∧
      (ocrImageFile c4ImageScenario initialAppState).workerTerminations =
        initialAppState.workerTerminations + 1 ∧
      (ocrImageFile c4ImageScenario initialAppState).workerAlive = false) ∧
    terminateWorkerGuarded (terminateWorkerGuarded initialAppState) =
      terminateWorkerGuarded initialAppState :=
  ⟨worker_released_exactly_once.1 c4PdfScenario initialAppState 3 rfl rfl,
   worker_released_exactly_once.2.1 c4ImageScenario initialAppState rfl,
   worker_released_exactly_once.2.2 initialAppState⟩

end FileUploadModel

namespace FileUploadModel

/-- C5 (amended): on a completed operation, empty or whitespace-only
accumulated text yields the warning ("empty") outcome with cleared raw
text in both modes; non-whitespace text yields the success outcome, BUT
only the PDF path surfaces the trimmed text — the image path surfaces
`result.data.text` exactly as recognized, without trimming (line 108 of
the source; see `image_text_not_trimmed`). -/
theorem ocr_outcome_classification :
    (∀ (sc : ImageScenario) (st : AppState) (t : String),
      sc.workerInit = .ok () → sc.recognizeResult = .ok t →
      ((jsTrim t = "" → (ocrImageFile sc st).rawExtractedText = "" ∧
          (ocrImageFile sc st).statusMessage.mtype = MsgType.warning) ∧
       (jsTrim t ≠ "" → (ocrImageFile sc st).rawExtractedText = t ∧
          (ocrImageFile sc st).statusMessage.mtype = MsgType.success))) ∧
    (∀ (sc : PdfScenario) (st : AppState) (N : ℕ),
      sc.parse = .ok N → sc.workerInit = .ok () →
      (∀ i ∈ List.range' 1 N,
        (sc.renderResult i).isOk = true ∧ (sc.recognizeResult i).isOk = true) →
      ((jsTrim (joinPages sc (List.range' 1 N)) = "" →
          (ocrPdfDocument sc st).rawExtractedText = "" ∧
          (ocrPdfDocument sc st).statusMessage.mtype = MsgType.warning) ∧
       (jsTrim (joinPages sc (List.range' 1 N)) ≠ "" →
          (ocrPdfDocument sc st).rawExtractedText = jsTrim (joinPages sc (List.range' 1 N)) ∧
          (ocrPdfDocument sc st).statusMessage.mtype = MsgType.success))) := by
  constructor
  · intro sc st t hw ht
    unfold ocrImageFile
    dsimp only
    split
    next st1 heq =>
      obtain ⟨h1, h2⟩ := ocrImageTry_ok_raw sc _ st1 t hw ht heq
      obtain ⟨f1, f2, -, -, -⟩ := ocrImageFinally_fields st1
      constructor
      · intro hc
        obtain ⟨hr, hm⟩ := h1 hc
        exact ⟨f1.trans hr, (congrArg StatusMessage.mtype f2).trans hm⟩
      · intro hc
        obtain ⟨hr, hm⟩ := h2 hc
        exact ⟨f1.trans hr, (congrArg StatusMessage.mtype f2).trans hm⟩
    next e st1 heq =>
      exact absurd heq (ocrImageTry_no_error sc _ t hw ht (e, st1))
  · intro sc st N hp hw hall
    unfold ocrPdfDocument
    dsimp only
    split
    next st1 heq =>
      obtain ⟨h1, h2⟩ := ocrPdfTry_ok_raw sc _ st1 N hp hw heq
      obtain ⟨f1, f2, -, -, -, -, -⟩ := ocrPdfFinally_fields st1
      constructor
      · intro hc
        obtain ⟨hr, hm⟩ := h1 hc
        exact ⟨f1.trans hr, (congrArg StatusMessage.mtype f2).trans hm⟩
      · intro hc
        obtain ⟨hr, hm⟩ := h2 hc
        exact ⟨f1.trans hr, (congrArg StatusMessage.mtype f2).trans hm⟩
    next e st1 heq =>
      exact absurd heq (ocrPdfTry_no_error sc _ N hp hw hall (e, st1))

/-- Witness for `ocr_outcome_classification`: the image scenario
recognizing " a " surfaces " a " unchanged with a success status. -/
theorem ocr_outcome_classification_witness :
    (ocrImageFile c5ImageScenario initialAppState).rawExtractedText = " a " ∧
    (ocrImageFile c5ImageScenario initialAppState).statusMessage.mtype = MsgType.success :=
  ((ocr_outcome_classification.1 c5ImageScenario initialAppState " a " rfl rfl).2 (by decide))

/-- C5 counterexample: the image path surfaces the recognized text
untrimmed — " a " is surfaced as " a ", which differs from its trim. -/
theorem image_text_not_trimmed :
    (ocrImageFile c5ImageScenario initialAppState).rawExtractedText = " a " ∧
    " a " ≠ jsTrim " a " :=
  ⟨by decide, by decide⟩

/-- C6: each successfully recognized page appends its text plus one
newline to the running buffer, and the two-page PDF recognizing "Alpha"
then "Beta" surfaces exactly "Alpha\nBeta" after the final trim. -/
theorem pdf_page_separator :
    (∀ (sc : PdfScenario) (N : ℕ) (ps : List ℕ) (st : AppState) (acc : String),
      (∀ i ∈ ps, (sc.renderResult i).isOk = true ∧ (sc.recognizeResult i).isOk = true) →
      ∃ st1, pdfLoop sc N ps st acc = .ok (st1, acc ++ joinPages sc ps)) ∧
    (ocrPdfDocument alphaBetaScenario initialAppState).rawExtractedText = "Alpha\nBeta" :=
  ⟨fun sc N ps st acc hall => pdfLoop_text sc N ps st acc hall, by decide⟩

/-- Witness for `pdf_page_separator` on the concrete two-page scenario. -/
theorem pdf_page_separator_witness :
    ∃ st1, pdfLoop alphaBetaScenario 2 (List.range' 1 2) initialAppState "" =
      .ok (st1, "" ++ joinPages alphaBetaScenario (List.range' 1 2)) :=
  pdf_page_separator.1 alphaBetaScenario 2 (List.range' 1 2) initialAppState "" (by decide)

/-- C7 (amended): an upload whose media type is neither
`application/pdf` nor `image/*` is rejected before any resource is
allocated — no worker is created, no parse is attempted, no progress
event is emitted, the file is dropped and loading is cleared — but the
outcome is signalled with a `warning`-type status message, not the
`error`-type used for failed operations (see
`unsupported_media_not_error_outcome`). -/
theorem unsupported_media_type_rejected (f : FileInfo) (psc : PdfScenario)
    (isc : ImageScenario) (st : AppState)
    (h1 : f.mediaType ≠ "application/pdf")
    (h2 : strStartsWith f.mediaType "image/" = false) :
    (handleFile (some f) psc isc st).workersCreated = st.workersCreated ∧
    (handleFile (some f) psc isc st).parseAttempts = st.parseAttempts ∧
    (handleFile (some f) psc isc st).emittedProgress = st.emittedProgress ∧
    (handleFile (some f) psc isc st).currentFile = none ∧
    (handleFile (some f) psc isc st).isLoading = false ∧
    (handleFile (some f) psc isc st).rawExtractedText = "" ∧
    (handleFile (some f) psc isc st).statusMessage =
      ⟨"Tipo de arquivo não suportado. Use PDF ou Imagem.", MsgType.warning⟩ := by
  unfold handleFile handleFilePrep
  simp [h1, h2, setStatusMessage, setRawExtractedText]

/-- Witness for `unsupported_media_type_rejected` on a text/plain file. -/
theorem unsupported_media_type_rejected_witness :
    (handleFile (some c7File) c4PdfScenario c4ImageScenario initialAppState).workersCreated =
      initialAppState.workersCreated ∧
    (handleFile (some c7File) c4PdfScenario c4ImageScenario initialAppState).parseAttempts =
      initialAppState.parseAttempts ∧
    (handleFile (some c7File) c4PdfScenario c4ImageScenario initialAppState).emittedProgress =
      initialAppState.emittedProgress ∧
    (handleFile (some c7File) c4PdfScenario c4ImageScenario initialAppState).currentFile = none ∧
    (handleFile (some c7File) c4PdfScenario c4ImageScenario initialAppState).isLoading = false ∧
    (handleFile (some c7File) c4PdfScenario c4ImageScenario initialAppState).rawExtractedText = "" ∧
    (handleFile (some c7File) c4PdfScenario c4ImageScenario initialAppState).statusMessage =
      ⟨"Tipo de arquivo não suportado. Use PDF ou Imagem.", MsgType.warning⟩ :=
  unsupported_media_type_rejected c7File c4PdfScenario c4ImageScenario initialAppState
    (by decide) (by decide)

/-- C7 counterexample: the rejection is signalled with a warning-type
status, not the error ("failed") type the claim asserts. -/
theorem unsupported_media_not_error_outcome :
    (handleFile (some c7File) c4PdfScenario c4ImageScenario initialAppState).statusMessage.mtype =
      MsgType.warning ∧
    MsgType.warning ≠ MsgType.error :=
  ⟨by decide, by decide⟩

end FileUploadModel

namespace FileUploadModel

/-- C8 (amended): the base progress recorded before starting page `i` of
`N` is the exact unrounded value `((i-1)/N) * 100` (line 145 stores
`((i - 1) / pdfDoc.numPages) * 100` with no `Math.round`), for every page
reached by the loop, on success and on thrown exits alike; the claim's
`round((i-1)/N * 100)` differs from it whenever `N` does not divide
`(i-1)*100` (see `pdf_base_progress_not_rounded`). -/
theorem pdf_base_progress_recorded_exact (sc : PdfScenario) (st : AppState)
    (hT : st.refTrace = []) :
    ∀ r ∈ (ocrPdfDocument sc st).refTrace,
      1 ≤ r.currentPage ∧ r.currentPage ≤ r.totalPages ∧
      r.baseProgress = (((r.currentPage : ℚ) - 1) / (r.totalPages : ℚ)) * 100 := by
  unfold ocrPdfDocument
  dsimp only
  split
  next st1 heq =>
    intro r hr
    rw [(ocrPdfFinally_fields st1).2.2.2.2.2.1] at hr
    refine (ocrPdfTry_refTrace_good sc _ ?_).2 st1 heq r hr
    exact hT
  next e st1 heq =>
    intro r hr
    have hfe : (ocrPdfFinally (terminateWorkerGuarded (setStatusMessage
        (setRawExtractedText st1 "") ("Falha ao processar PDF com OCR: " ++ e)
        MsgType.error))).refTrace = st1.refTrace := by
      unfold terminateWorkerGuarded
      split_ifs <;> rfl
    rw [hfe] at hr
    refine (ocrPdfTry_refTrace_good sc _ ?_).1 e st1 heq r hr
    exact hT

/-- Witness for `pdf_base_progress_recorded_exact`: the ref recorded for
page 2 of the 3-page run is `⟨2, 3, 100/3, 100/3⟩` and satisfies the
exact-fraction property. -/
theorem pdf_base_progress_recorded_exact_witness :
    (⟨2, 3, 100/3, 100/3⟩ : OcrPageProgressData) ∈
      (ocrPdfDocument c8Scenario initialAppState).refTrace ∧
    (1 ≤ (⟨2, 3, 100/3, 100/3⟩ : OcrPageProgressData).currentPage ∧
     (⟨2, 3, 100/3, 100/3⟩ : OcrPageProgressData).currentPage ≤
       (⟨2, 3, 100/3, 100/3⟩ : OcrPageProgressData).totalPages ∧
     (⟨2, 3, 100/3, 100/3⟩ : OcrPageProgressData).baseProgress =
       ((((⟨2, 3, 100/3, 100/3⟩ : OcrPageProgressData).currentPage : ℚ) - 1) /
         ((⟨2, 3, 100/3, 100/3⟩ : OcrPageProgressData).totalPages : ℚ)) * 100) :=
  ⟨by decide, pdf_base_progress_recorded_exact c8Scenario initialAppState rfl
    ⟨2, 3, 100/3, 100/3⟩ (by decide)⟩

/-- C8 counterexample: the recorded base for page 2 of 3 is `100/3`,
which is NOT equal to `round((2-1)/3 * 100) = 33`. -/
theorem pdf_base_progress_not_rounded :
    (⟨2, 3, 100/3, 100/3⟩ : OcrPageProgressData) ∈
      (ocrPdfDocument c8Scenario initialAppState).refTrace ∧
    (100 : ℚ)/3 ≠ ((jsRound (((((2:ℕ) : ℚ)) - 1) / ((3:ℕ) : ℚ) * 100) : ℤ) : ℚ) :=
  ⟨by decide, by decide⟩

/-- C9: whatever the outcome, both OCR operations run their `finally`
block, so the loading flag is cleared, the processing message is emptied,
the processing progress is reset to 0, and (for PDFs) the per-page ref is
reset to all zeros. -/
theorem pipeline_resets_progress_state (psc : PdfScenario) (isc : ImageScenario)
    (st : AppState) :
    (ocrPdfDocument psc st).isLoading = false ∧
    (ocrPdfDocument psc st).processingMessage = "" ∧
    (ocrPdfDocument psc st).processingProgress = 0 ∧
    (ocrPdfDocument psc st).ocrRef = ⟨0, 0, 0, 0⟩ ∧
    (ocrImageFile isc st).isLoading = false ∧
    (ocrImageFile isc st).processingMessage = "" ∧
    (ocrImageFile isc st).processingProgress = 0 := by
  refine ⟨?_, ?_, ?_, ?_, ?_, ?_, ?_⟩ <;>
    first
      | (unfold ocrPdfDocument; dsimp only; split <;> rfl)
      | (unfold ocrImageFile; dsimp only; split <;> rfl)

/-- C10: `handleFile` clears the raw extracted text before dispatching to
either OCR function, and any operation whose final status is a warning
(empty outcome) or an error leaves the raw extracted text empty. -/
theorem raw_text_cleared_on_non_success :
    (∀ (f : FileInfo) (st : AppState), (handleFilePrep f st).rawExtractedText = "") ∧
    (∀ (sc : PdfScenario) (st : AppState),
      ((ocrPdfDocument sc st).statusMessage.mtype = MsgType.warning ∨
       (ocrPdfDocument sc st).statusMessage.mtype = MsgType.error) →
      (ocrPdfDocument sc st).rawExtractedText = "") ∧
    (∀ (sc : ImageScenario) (st : AppState),
      ((ocrImageFile sc st).statusMessage.mtype = MsgType.warning ∨
       (ocrImageFile sc st).statusMessage.mtype = MsgType.error) →
      (ocrImageFile sc st).rawExtractedText = "") := by
  refine ⟨fun f st => rfl, ?_, ?_⟩
  · intro sc st
    unfold ocrPdfDocument
    dsimp only
    split
    next st1 heq =>
      intro h
      obtain ⟨f1, f2, -, -, -, -, -⟩ := ocrPdfFinally_fields st1
      rcases ocrPdfTry_ok_classified sc _ st1 heq with ⟨hm, hr⟩ | ⟨hm, hr⟩
      · exact f1.trans hr
      · rw [f2, hm] at h
        rcases h with h | h <;> exact absurd h (by decide)
    next e st1 heq =>
      intro h
      unfold ocrPdfFinally terminateWorkerGuarded
      split_ifs <;> rfl
  · intro sc st
    unfold ocrImageFile
    dsimp only
    split
    next st1 heq =>
      intro h
      obtain ⟨f1, f2, -, -, -⟩ := ocrImageFinally_fields st1
      rcases ocrImageTry_ok_classified sc _ st1 heq with ⟨hm, hr⟩ | ⟨hm, hr⟩
      · exact f1.trans hr
      · rw [f2, hm] at h
        rcases h with h | h <;> exact absurd h (by decide)
    next e st1 heq =>
      intro h
      unfold ocrImageFinally terminateWorkerGuarded
      split_ifs <;> rfl

/-- Witness for `raw_text_cleared_on_non_success`: the preparation step
for a pdf upload clears the text, and a failed parse leaves it empty. -/
theorem raw_text_cleared_on_non_success_witness :
    (handleFilePrep c10File initialAppState).rawExtractedText = "" ∧
    (ocrPdfDocument c10PdfFailScenario initialAppState).rawExtractedText = "" :=
  ⟨raw_text_cleared_on_non_success.1 c10File initialAppState,
   raw_text_cleared_on_non_success.2.1 c10PdfFailScenario initialAppState (by decide)⟩

end FileUploadModel
